import Mathlib

/-!
Shallow embedding of `src/TP4_server.py` (abdellahhn/Socket_msg_program),
a single-threaded store-and-forward mail server.

Modelling conventions:
* a client socket object is identified by a natural number (`Socket`);
* the Python dict `self._logged_users : {username: socket}` is an association
  list in insertion order with unique keys;
* the filesystem under `SERVER_DATA_DIR` is a list of `(directoryName, UserDir)`
  pairs in creation order; `os.listdir` is modelled as returning directory
  entries in creation order (the code itself applies no reordering; file names
  are the email subjects, and rewriting an existing file keeps its position);
* `SERVER_LOST_DIR` is a list of emails (`lostDir`);
* Python exceptions are the `.error` side of `Except PyErr`; every handler
  raises, when it raises, before mutating any state, so the state paired with
  an error is the pre-state;
* effects of a handler are recorded explicitly: the frames it writes with
  `glosocket.send_msg`, the Python value it returns (re-serialised and sent a
  second time by `run`), and the messages handed to the SMTP relay;
* subjects/usernames are modelled as flat file names; an empty subject makes
  `open` hit the directory itself (IsADirectoryError), names containing path
  separators are outside the model.
-/

/-- Identity of a client socket object (`socket.socket`). -/
abbrev Socket := Nat

/-- Python exceptions that the embedded code can raise. -/
inductive PyErr
  | attributeError
  | fileNotFoundError
  | isADirectoryError
  | runtimeError
  | valueError
  deriving DecidableEq, Repr

/-- Modelled from the spec: `gloutils.Headers` response vocabulary (§6 table);
only `OK` and `ERROR` appear in responses. -/
inductive RespHeader
  | OK
  | ERROR
  deriving DecidableEq, Repr

/-- A Python value returned by a handler; `run` serialises it with
`json.dumps` and sends it as one more frame. -/
inductive PyVal
  | pyNone
  | gloMsg (header : RespHeader) (payload : Option String)
  | emptyDict
  deriving DecidableEq, Repr

/-- One frame written with `glosocket.send_msg`.

Modelled from the spec: the framing utility `glosocket` is out of scope (§6);
per the spec one `send_msg` call is exactly one discrete frame on the wire. -/
inductive Frame
  | json (v : PyVal)
  | strList (xs : List String)
  | text (s : String)
  | stats (count : Nat) (size : Nat)
  deriving DecidableEq, Repr

/-- The `EmailContentPayload` of an `EMAIL_SENDING` request. -/
structure Email where
  sender : String
  destination : String
  subject : String
  date : String
  content : String
  deriving DecidableEq, Repr

/-- A message handed to the SMTP relay (`smtplib.SMTP(...).send_message`);
`timeoutSecs` records the bounded connection timeout passed to `smtplib.SMTP`. -/
structure RelayMsg where
  fromAddr : String
  toAddr : String
  subject : String
  content : String
  timeoutSecs : Nat
  deriving DecidableEq, Repr

/-- One account directory under `SERVER_DATA_DIR`: the optional password-hash
file and the optional `email` subdirectory (in creation order). -/
structure UserDir where
  passwordHash : Option String
  emailDir : Option (List Email)
  deriving DecidableEq, Repr

/-- The server state: `_client_socs`, `_logged_users`, the contents of
`SERVER_DATA_DIR` and of `SERVER_LOST_DIR`. -/
structure ServerState where
  clientSocs : List Socket
  loggedUsers : List (String × Socket)
  dataDirs : List (String × UserDir)
  lostDir : List Email
  deriving DecidableEq, Repr

/-- The state right after `Server.__init__`: no clients, no sessions, empty
data directory and empty lost-mail directory. -/
def initState : ServerState := ⟨[], [], [], []⟩

/-- Python `dict.get` / `dict[k]` lookup. -/
def dictGet (m : List (String × Socket)) (k : String) : Option Socket :=
  (m.find? (fun p => p.1 == k)).map (·.2)

/-- Python `dict[k] = v`: update in place when the key exists, else append. -/
def dictInsert (m : List (String × Socket)) (k : String) (v : Socket) :
    List (String × Socket) :=
  if m.any (fun p => p.1 == k) then
    m.map (fun p => if p.1 == k then (k, v) else p)
  else m ++ [(k, v)]

/-- The Python idiom `for key, value in d.items(): if value == s: nom = key`
keeps the LAST matching key. -/
def lastKeyFor (m : List (String × Socket)) (s : Socket) : Option String :=
  m.foldl (fun acc p => if p.2 == s then some p.1 else acc) none

/-- Lookup of a directory name under `SERVER_DATA_DIR`. -/
def dirLookup (dirs : List (String × UserDir)) (name : String) : Option UserDir :=
  (dirs.find? (fun p => p.1 == name)).map (·.2)

/-- Replace the directory entry for `name` in place. -/
def dirUpdate (dirs : List (String × UserDir)) (name : String) (d : UserDir) :
    List (String × UserDir) :=
  dirs.map (fun p => if p.1 == name then (name, d) else p)

/-- Writing `open(dir, subject, "w")`: a file named by the subject; an existing
file with that name is overwritten in place, a new one is appended. -/
def insertBySubject (l : List Email) (e : Email) : List Email :=
  if l.any (fun x => x.subject == e.subject) then
    l.map (fun x => if x.subject == e.subject then e else x)
  else l ++ [e]

/-- Abstract injective model of `hashlib.sha3_224(password).hexdigest()`;
only its use as an opaque stored digest matters to the embedded code. -/
def sha3_224 (password : String) : String := "sha3-" ++ password

/-- Modelled from the spec: `gloutils.SUBJECT_DISPLAY` renders a summary
carrying the 1-based display number, sender, subject and date. -/
def subjectDisplay (number : Nat) (sender subject date : String) : String :=
  toString number ++ " - " ++ sender ++ " - " ++ subject ++ " - " ++ date

/-- Contents of a stored email file, `json.dumps(payload)`; kept abstract as a
field-tagged rendering, used as opaque text and for its length. -/
def emailFileContent (e : Email) : String :=
  "sender=" ++ e.sender ++ ";destination=" ++ e.destination ++ ";subject=" ++
    e.subject ++ ";date=" ++ e.date ++ ";content=" ++ e.content

/-- Size in the model of one stored email file (`os.path.getsize`). -/
def emailFileSize (e : Email) : Nat := (emailFileContent e).length

/-- The `str(...)` rendering of a socket object, as interpolated by
`_get_stats` into a path; it contains characters no registered account
directory carries. -/
def socketRepr (s : Socket) : String := "<socket fd=" ++ toString s ++ ">"

/-- Everything a handler does besides raising: the post-state, the frames it
sent itself, the Python value it returned to `run`, and relayed messages. -/
structure HandlerOut where
  state : ServerState
  frames : List Frame
  ret : PyVal
  relayed : List RelayMsg
  deriving DecidableEq, Repr

/-- `Server._logout`: find the last username bound to this socket and delete
it; a no-op for an anonymous connection. Returns Python `None`. -/
def logout (st : ServerState) (soc : Socket) : ServerState × PyVal :=
  match lastKeyFor st.loggedUsers soc with
  | some nom =>
      ({ st with loggedUsers := st.loggedUsers.filter (fun p => p.1 != nom) },
       PyVal.pyNone)
  | none => (st, PyVal.pyNone)

/-- `Server._remove_client`: the loop pops from `_logged_users` WHILE iterating
over `.items()`, so any logged-in client raises RuntimeError; removing a socket
absent from `_client_socs` raises ValueError (`list.remove`). -/
def removeClient (st : ServerState) (soc : Socket) : Except PyErr ServerState :=
  if st.loggedUsers.any (fun p => p.2 == soc) then
    Except.error PyErr.runtimeError
  else if st.clientSocs.contains soc then
    Except.ok { st with clientSocs := st.clientSocs.erase soc }
  else
    Except.error PyErr.valueError

/-- `Server._create_account`. The duplicate-username loop evaluates
`self._logged_users[user_index].lower()` on a SOCKET value, so it raises
AttributeError as soon as `_logged_users` is non-empty. With an empty session
map: invalid credentials send one ERROR frame and return `send_msg`'s value
(None); valid credentials bind the session, create the account directory and
password file when absent, send one OK frame and return None. -/
def createAccount (st : ServerState) (soc : Socket) (username password : String) :
    Except PyErr HandlerOut :=
  if st.loggedUsers.isEmpty then
    let userValid := username.data.any Char.isAlpha
    let passwordValid := password.length > 9
    if !(passwordValid && userValid) then
      Except.ok ⟨st, [Frame.json (PyVal.gloMsg RespHeader.ERROR none)],
        PyVal.pyNone, []⟩
    else
      let st1 := { st with loggedUsers := dictInsert st.loggedUsers username soc }
      let hashed := sha3_224 password
      let st2 :=
        match dirLookup st1.dataDirs username with
        | some _ => st1
        | none =>
            { st1 with dataDirs := st1.dataDirs ++ [(username, ⟨some hashed, none⟩)] }
      Except.ok ⟨st2, [Frame.json (PyVal.gloMsg RespHeader.OK none)],
        PyVal.pyNone, []⟩
  else
    Except.error PyErr.attributeError

/-- `Server._login`: never reads the submitted password or the stored hash; it
answers OK exactly when the username is currently bound to the very socket
making the request, ERROR otherwise. No state change. -/
def login (st : ServerState) (soc : Socket) (username password : String) :
    Except PyErr HandlerOut :=
  match dictGet st.loggedUsers username with
  | some existingSocket =>
      if existingSocket == soc then
        Except.ok ⟨st, [Frame.json (PyVal.gloMsg RespHeader.OK none)],
          PyVal.pyNone, []⟩
      else
        Except.ok ⟨st, [Frame.json (PyVal.gloMsg RespHeader.ERROR none)],
          PyVal.pyNone, []⟩
  | none =>
      Except.ok ⟨st, [Frame.json (PyVal.gloMsg RespHeader.ERROR none)],
        PyVal.pyNone, []⟩

/-- Resolution of `nom_client` in `_get_email_list` / `_get_email`: the last
username bound to the socket, or the empty string. -/
def resolvedUser (st : ServerState) (soc : Socket) : String :=
  (lastKeyFor st.loggedUsers soc).getD ""

/-- Existence and contents of `SERVER_DATA_DIR/name/email`. -/
def userEmailDir (st : ServerState) (name : String) : Option (List Email) :=
  match dirLookup st.dataDirs name with
  | none => none
  | some d => d.emailDir

/-- `Server._get_email_list`: when the `email` subdirectory is missing, send
the empty list; otherwise send one `SUBJECT_DISPLAY` line per directory entry,
numbered `o + 1` in listing order. Returns `GloMessage()` (an empty dict). -/
def getEmailList (st : ServerState) (soc : Socket) : Except PyErr HandlerOut :=
  let nomClient := resolvedUser st soc
  match userEmailDir st nomClient with
  | none => Except.ok ⟨st, [Frame.strList []], PyVal.emptyDict, []⟩
  | some emails =>
      Except.ok ⟨st, [Frame.strList (emails.enum.map (fun p =>
        subjectDisplay (p.1 + 1) p.2.sender p.2.subject p.2.date))],
        PyVal.emptyDict, []⟩

/-- `Server._get_email`: `os.listdir` on a missing mail directory raises
FileNotFoundError; `courr` is the entry whose 0-based enumeration index equals
`choice - 1`, and when no entry matches, `courr` stays the empty string and
`open(dir + "/email/" + "")` raises IsADirectoryError. On a match the raw file
text is sent and `GloMessage()` is returned. -/
def getEmail (st : ServerState) (soc : Socket) (choice : Int) :
    Except PyErr HandlerOut :=
  let nomClient := resolvedUser st soc
  let choix : Int := choice - 1
  match userEmailDir st nomClient with
  | none => Except.error PyErr.fileNotFoundError
  | some emails =>
      match emails.enum.foldl
          (fun acc p => if (p.1 : Int) == choix then some p.2 else acc) none with
      | some e =>
          Except.ok ⟨st, [Frame.text (emailFileContent e)], PyVal.emptyDict, []⟩
      | none => Except.error PyErr.isADirectoryError

/-- `Server._get_stats`: the path is interpolated from `str(client_soc)` — the
socket's repr — not from the resolved username, so `os.listdir` is applied to
`SERVER_DATA_DIR/<socket repr>/email`, which raises FileNotFoundError unless a
directory by that exact name exists. -/
def getStats (st : ServerState) (soc : Socket) : Except PyErr HandlerOut :=
  let chemin := socketRepr soc
  match userEmailDir st chemin with
  | none => Except.error PyErr.fileNotFoundError
  | some emails =>
      Except.ok ⟨st, [Frame.stats emails.length
        ((emails.map emailFileSize).sum)], PyVal.emptyDict, []⟩

/-- Outcome of the single synchronous SMTP relay attempt (external network). -/
inductive SmtpOutcome
  | success
  | smtpError (msg : String)
  | connTimeout
  deriving DecidableEq, Repr

/-- Writing one email file under `SERVER_DATA_DIR/dest/email`, with
`os.makedirs` creating the destination directory (without any password file!)
and the `email` subdirectory when absent. -/
def writeEmailFile (dirs : List (String × UserDir)) (dest : String) (e : Email) :
    List (String × UserDir) :=
  match dirLookup dirs dest with
  | none => dirs ++ [(dest, ⟨none, some [e]⟩)]
  | some d =>
      match d.emailDir with
      | none => dirUpdate dirs dest { d with emailDir := some [e] }
      | some l => dirUpdate dirs dest { d with emailDir := some (insertBySubject l e) }

/-- `Server._send_email`: branches on `self._logged_users.get(payload["sender"])`
— the SENDER's session — never on the destination. A logged-in sender's message
is written under `SERVER_DATA_DIR/<destination>/email` (whatever the
destination is) and OK is returned; otherwise the message is handed to the
SMTP relay with a 10-second timeout and the relay outcome decides OK or ERROR.
`SERVER_LOST_DIR` is never touched. -/
def sendEmail (st : ServerState) (payload : Email) (smtp : SmtpOutcome) :
    Except PyErr HandlerOut :=
  let dest := payload.destination
  let userNm := payload.sender
  if (dictGet st.loggedUsers userNm).isSome then
    if payload.subject == "" then Except.error PyErr.isADirectoryError
    else
      Except.ok ⟨{ st with dataDirs := writeEmailFile st.dataDirs dest payload },
        [], PyVal.gloMsg RespHeader.OK none, []⟩
  else
    let msg : RelayMsg := ⟨userNm, dest, payload.subject, payload.content, 10⟩
    match smtp with
    | SmtpOutcome.success =>
        Except.ok ⟨st, [], PyVal.gloMsg RespHeader.OK none, [msg]⟩
    | SmtpOutcome.smtpError m =>
        Except.ok ⟨st, [], PyVal.gloMsg RespHeader.ERROR (some m), [msg]⟩
    | SmtpOutcome.connTimeout =>
        Except.ok ⟨st, [], PyVal.gloMsg RespHeader.ERROR
          (some "Echec de la connexion."), [msg]⟩

/-- A successfully parsed request, by its `gloutils.Headers` kind. The SMTP
outcome for `EMAIL_SENDING` is the environment's response to the relay
attempt. -/
inductive Request
  | authRegister (username password : String)
  | authLogin (username password : String)
  | authLogout
  | bye
  | inboxReadingRequest
  | inboxReadingChoice (choice : Int)
  | emailSending (e : Email) (smtp : SmtpOutcome)
  | statsRequest
  deriving DecidableEq, Repr

/-- One readiness event observed by `select` in `Server.run`: a pending
connection on the listening socket, a complete parsed frame on a client
socket, or a receive failure (`glosocket` error on peer close / bad framing,
or a `json.loads` failure). -/
inductive NetEvent
  | newConnection (soc : Socket)
  | request (soc : Socket) (req : Request)
  | recvError (soc : Socket)
  deriving DecidableEq, Repr

/-- Result of one iteration step of the `while True` loop in `Server.run`:
either the loop continues with a new state having written `sent` frames and
relayed `relayed` messages, or the loop broke out (any exception) and
`cleanup` closed every socket in `closedSockets`. -/
inductive StepResult
  | continued (st : ServerState) (sent : List (Socket × Frame))
      (relayed : List RelayMsg)
  | terminated (closedSockets : List Socket)
  deriving DecidableEq, Repr

/-- The dispatch chain of `Server.run` for one parsed message: each branch
except `BYE` wraps the handler in `glosocket.send_msg(soc, json.dumps(...))`,
so the handler's own frames are followed by one more frame carrying the
handler's return value. `BYE` only logs the user out. A `STATS_REQUEST`
matches NO branch of the chain: nothing is dispatched and nothing is sent. -/
def dispatch (st : ServerState) (soc : Socket) (req : Request) :
    Except PyErr (ServerState × List Frame × List RelayMsg) :=
  match req with
  | Request.authRegister u p =>
      (createAccount st soc u p).map
        (fun o => (o.state, o.frames ++ [Frame.json o.ret], o.relayed))
  | Request.authLogin u p =>
      (login st soc u p).map
        (fun o => (o.state, o.frames ++ [Frame.json o.ret], o.relayed))
  | Request.authLogout =>
      let r := logout st soc
      Except.ok (r.1, [Frame.json r.2], [])
  | Request.bye =>
      Except.ok ((logout st soc).1, [], [])
  | Request.inboxReadingRequest =>
      (getEmailList st soc).map
        (fun o => (o.state, o.frames ++ [Frame.json o.ret], o.relayed))
  | Request.inboxReadingChoice c =>
      (getEmail st soc c).map
        (fun o => (o.state, o.frames ++ [Frame.json o.ret], o.relayed))
  | Request.emailSending e sm =>
      (sendEmail st e sm).map
        (fun o => (o.state, o.frames ++ [Frame.json o.ret], o.relayed))
  | Request.statsRequest =>
      Except.ok (st, [], [])

/-- One iteration of `Server.run`. The whole body sits inside
`try ... except Exception: break`, so ANY exception — including a
per-connection receive failure — breaks the loop, after which `cleanup`
closes every client socket; `_remove_client` is never called. Every raising
path raises before mutating state, so the sockets closed are the pre-state's. -/
def runStep (st : ServerState) (ev : NetEvent) : StepResult :=
  match ev with
  | NetEvent.newConnection s =>
      StepResult.continued { st with clientSocs := st.clientSocs ++ [s] } [] []
  | NetEvent.recvError _ =>
      StepResult.terminated st.clientSocs
  | NetEvent.request soc req =>
      match dispatch st soc req with
      | Except.ok (st2, fs, rs) =>
          StepResult.continued st2 (fs.map (fun f => (soc, f))) rs
      | Except.error _ =>
          StepResult.terminated st.clientSocs

/-- An authentication operation, as quantified over by the session-binding
invariant: registration, login or logout, from some connection. -/
inductive AuthOp
  | register (soc : Socket) (username password : String)
  | login (soc : Socket) (username password : String)
  | logout (soc : Socket)
  deriving DecidableEq, Repr

/-- Effect of one authentication operation on the server state; an operation
that raises leaves the state unchanged (every raising path in the handlers
raises before mutating). -/
def applyAuthOp (st : ServerState) (op : AuthOp) : ServerState :=
  match op with
  | AuthOp.register s u p =>
      match createAccount st s u p with
      | Except.ok o => o.state
      | Except.error _ => st
  | AuthOp.login s u p =>
      match login st s u p with
      | Except.ok o => o.state
      | Except.error _ => st
  | AuthOp.logout s => (logout st s).1

/-- The session map is one-to-one: pairwise distinct usernames and pairwise
distinct connections. -/
def oneToOne (m : List (String × Socket)) : Prop :=
  m.Pairwise (fun a b => a.1 ≠ b.1 ∧ a.2 ≠ b.2)

/-- Digest file of the account `alice` registered with password `supersecret1`;
no mail subdirectory yet. -/
def aliceDir : UserDir := ⟨some (sha3_224 "supersecret1"), none⟩

/-- An older stored email of alice (first directory entry). -/
def em1 : Email := ⟨"alice", "alice", "first", "2023-01-01", "older body"⟩

/-- A newer stored email of alice (second directory entry). -/
def em2 : Email := ⟨"alice", "alice", "second", "2023-01-02", "newer body"⟩

/-- Two connected clients, `alice` registered and bound to connection 1. -/
def exSt : ServerState := ⟨[1, 2], [("alice", 1)], [("alice", aliceDir)], []⟩

/-- Like `exSt` but alice's mail directory exists and is empty. -/
def exStEmptyInbox : ServerState :=
  ⟨[1, 2], [("alice", 1)], [("alice", ⟨some (sha3_224 "supersecret1"), some []⟩)], []⟩

/-- Like `exSt` but alice's mail directory holds one email. -/
def exStOneMail : ServerState :=
  ⟨[1, 2], [("alice", 1)], [("alice", ⟨some (sha3_224 "supersecret1"), some [em1]⟩)], []⟩

/-- Like `exSt` but alice's mail directory holds `em1` then `em2` (creation
order: `em1` older). -/
def exStTwoMails : ServerState :=
  ⟨[1, 2], [("alice", 1)], [("alice", ⟨some (sha3_224 "supersecret1"), some [em1, em2]⟩)], []⟩

/-- Like `exSt` after alice logged out: account persisted, no session. -/
def exStLoggedOut : ServerState := ⟨[1, 2], [], [("alice", aliceDir)], []⟩

/-- C1: the claim fails on the code. With account `alice` persisted under
digest `sha3_224 "supersecret1"` and bound to connection 1, a login on
connection 1 with a WRONG password (digest differs from the stored hash) is
answered OK, and a login on connection 2 with the CORRECT password is answered
ERROR: `_login` never consults the password or the stored hash, only
socket identity. -/
theorem login_ignores_password_hash :
    sha3_224 "wrongpass123" ≠ sha3_224 "supersecret1" ∧
    (dirLookup exSt.dataDirs "alice").map (·.passwordHash) =
      some (some (sha3_224 "supersecret1")) ∧
    login exSt 1 "alice" "wrongpass123" =
      Except.ok ⟨exSt, [Frame.json (PyVal.gloMsg RespHeader.OK none)],
        PyVal.pyNone, []⟩ ∧
    login exSt 2 "alice" "supersecret1" =
      Except.ok ⟨exSt, [Frame.json (PyVal.gloMsg RespHeader.ERROR none)],
        PyVal.pyNone, []⟩ :=
  ⟨by decide, rfl, rfl, rfl⟩

/-- Destination used twice in the routing counterexample for C2. -/
def extDest : String := "bob@external.example"

/-- Payload whose sender `alice` is logged in. -/
def p2a : Email := ⟨"alice", extDest, "hello", "2023-05-01", "hi"⟩

/-- Same destination and body, but sender `mallory` has no session. -/
def p2b : Email := ⟨"mallory", extDest, "hello", "2023-05-01", "hi"⟩

/-- C2: the claim fails on the code. For one and the same destination
(`bob@external.example`, not a local account), the message of a logged-in
sender is written locally under `SERVER_DATA_DIR/bob@external.example/email`
(the directory is even created), while the message of a sender without a
session is handed to the SMTP relay: `_send_email` branches on
`_logged_users.get(sender)`, so the routing decision depends on the sender's
session, not only on the destination. -/
theorem routing_depends_on_sender_not_destination :
    dirLookup exSt.dataDirs extDest = none ∧
    sendEmail exSt p2a SmtpOutcome.success =
      Except.ok ⟨{ exSt with dataDirs := exSt.dataDirs ++ [(extDest, ⟨none, some [p2a]⟩)] },
        [], PyVal.gloMsg RespHeader.OK none, []⟩ ∧
    sendEmail exSt p2b SmtpOutcome.success =
      Except.ok ⟨exSt, [], PyVal.gloMsg RespHeader.OK none,
        [⟨"mallory", extDest, "hello", "hi", 10⟩]⟩ :=
  ⟨rfl, rfl, rfl⟩

/-- A message whose destination `!!!` is neither a known local account nor a
syntactically valid external address. -/
def pLost : Email := ⟨"alice", "!!!", "subj", "2023-05-02", "text"⟩

/-- C3: the claim fails on the code. Sending to the unroutable destination
`!!!` from the logged-in sender `alice` creates `SERVER_DATA_DIR/!!!/email`,
stores the message THERE (a recipient-style mailbox), reports OK, and leaves
the lost-mail directory untouched: `_send_email` never writes
`SERVER_LOST_DIR` and never reports a failure for unroutable destinations. -/
theorem unroutable_mail_bypasses_lost_dir :
    sendEmail exSt pLost SmtpOutcome.success =
      Except.ok ⟨{ exSt with dataDirs := exSt.dataDirs ++ [("!!!", ⟨none, some [pLost]⟩)] },
        [], PyVal.gloMsg RespHeader.OK none, []⟩ ∧
    ({ exSt with dataDirs := exSt.dataDirs ++ [("!!!", ⟨none, some [pLost]⟩)] }
      : ServerState).lostDir = [] :=
  ⟨rfl, rfl⟩

/-- C4: the claim fails on the code. EVERY per-connection receive failure
(peer closed, framing failure, malformed frame) breaks the `while True` loop
— `run` has a single `except Exception: break` around the whole body and
never calls `_remove_client` — after which `cleanup` closes every client
socket, not just the failing one. -/
theorem recv_error_terminates_loop (st : ServerState) (soc : Socket) :
    runStep st (NetEvent.recvError soc) = StepResult.terminated st.clientSocs :=
  rfl

/-- C5: the claim fails on the code. An out-of-range `INBOX_READING_CHOICE`
never yields a typed NotFound response: with an existing but empty mail
directory (or any index past the end, or index 0) `courr` stays `""` and
`open` raises IsADirectoryError; with no mail directory at all `os.listdir`
raises FileNotFoundError. Both exceptions escape `_get_email` (and break the
server loop); no response is sent. -/
theorem get_email_out_of_range_raises :
    getEmail exStEmptyInbox 1 1 = Except.error PyErr.isADirectoryError ∧
    getEmail exSt 1 1 = Except.error PyErr.fileNotFoundError ∧
    getEmail exStOneMail 1 2 = Except.error PyErr.isADirectoryError ∧
    getEmail exStOneMail 1 0 = Except.error PyErr.isADirectoryError :=
  ⟨rfl, rfl, rfl, rfl⟩

/-- C6: the claim fails on the code. (1) While any user is logged in, the
duplicate-username check evaluates `.lower()` on a socket value and raises
AttributeError, so registration of a fresh valid pair (`bob`,
`bobpassword123`) crashes rather than succeeding. (2) After alice logs out, a
second registration with the taken username `alice` is answered OK — not
ERROR — because only the session map, never the persisted accounts, is
consulted. -/
theorem create_account_dup_check_crashes :
    createAccount exSt 2 "bob" "bobpassword123" = Except.error PyErr.attributeError ∧
    createAccount exStLoggedOut 1 "alice" "newpassword123" =
      Except.ok ⟨exSt, [Frame.json (PyVal.gloMsg RespHeader.OK none)],
        PyVal.pyNone, []⟩ :=
  ⟨rfl, rfl⟩

/-- C7: the claim fails on the code. A successfully parsed `AUTH_LOGIN`
request receives TWO frames: `_login` sends its GloMessage itself and also
returns `send_msg`'s value (None), which `run` serialises and sends again. A
parsed `STATS_REQUEST` receives ZERO frames, since the dispatch chain in
`run` has no branch for it. -/
theorem responses_not_exactly_one_frame :
    runStep exSt (NetEvent.request 1 (Request.authLogin "alice" "supersecret1")) =
      StepResult.continued exSt
        [(1, Frame.json (PyVal.gloMsg RespHeader.OK none)),
         (1, Frame.json PyVal.pyNone)] [] ∧
    runStep exStLoggedOut (NetEvent.request 2 (Request.authRegister "carol" "carolpassword1")) =
      StepResult.continued
        ⟨[1, 2], [("carol", 2)],
          [("alice", aliceDir), ("carol", ⟨some (sha3_224 "carolpassword1"), none⟩)], []⟩
        [(2, Frame.json (PyVal.gloMsg RespHeader.OK none)),
         (2, Frame.json PyVal.pyNone)] [] :=
  ⟨rfl, rfl⟩

/-- C8: the claim fails on the code. A `STATS_REQUEST` from the logged-in
connection 1 (one stored email) is silently ignored — `run` dispatches no
branch for it, so no response frame is ever written — and `_get_stats`
itself, were it called, interpolates `str(client_soc)` (the socket repr)
into the path instead of resolving the username, so it raises
FileNotFoundError instead of answering with the user's count and sizes. -/
theorem stats_request_gets_no_response :
    runStep exStOneMail (NetEvent.request 1 Request.statsRequest) =
      StepResult.continued exStOneMail [] [] ∧
    getStats exStOneMail 1 = Except.error PyErr.fileNotFoundError ∧
    resolvedUser exStOneMail 1 = "alice" ∧
    userEmailDir exStOneMail "alice" = some [em1] :=
  ⟨rfl, rfl, rfl, rfl⟩

/-- Definition following the SPEC's words, for comparison with the code:
summaries ordered most-recent-first, i.e. reverse creation order, renumbered
from 1. -/
def specMostRecentFirst (emails : List Email) : List String :=
  emails.reverse.enum.map (fun p =>
    subjectDisplay (p.1 + 1) p.2.sender p.2.subject p.2.date)

/-- C9 counterexample: with alice's mail directory holding `em1` (older) then
`em2` (newer), `_get_email_list` answers the summaries in directory listing
order — `em1` first — which differs from the most-recent-first order the
claim states. -/
theorem email_list_not_most_recent_first :
    getEmailList exStTwoMails 1 =
      Except.ok ⟨exStTwoMails,
        [Frame.strList [subjectDisplay 1 "alice" "first" "2023-01-01",
                        subjectDisplay 2 "alice" "second" "2023-01-02"]],
        PyVal.emptyDict, []⟩ ∧
    [subjectDisplay 1 "alice" "first" "2023-01-01",
     subjectDisplay 2 "alice" "second" "2023-01-02"] ≠
      specMostRecentFirst [em1, em2] :=
  ⟨rfl, by decide⟩

/-- C9 (amended): for every state and connection, `_get_email_list` never
raises; it answers the empty list when the resolved user's mail directory
does not exist, and otherwise one summary per stored email — 1-based display
index, sender, subject, date — in the filesystem's directory listing order
(creation order in this model), not most-recent-first. -/
theorem email_list_listing_order (st : ServerState) (soc : Socket) :
    (userEmailDir st (resolvedUser st soc) = none →
      getEmailList st soc =
        Except.ok ⟨st, [Frame.strList []], PyVal.emptyDict, []⟩) ∧
    (∀ emails, userEmailDir st (resolvedUser st soc) = some emails →
      getEmailList st soc =
        Except.ok ⟨st, [Frame.strList (emails.enum.map (fun p =>
          subjectDisplay (p.1 + 1) p.2.sender p.2.subject p.2.date))],
          PyVal.emptyDict, []⟩) := by
  constructor
  · intro h
    simp [getEmailList, h]
  · intro emails h
    simp [getEmailList, h]

/-- Witness for the amended C9 theorem: both branches applied at concrete
states — alice with no mail directory, and alice with two stored emails. -/
theorem email_list_listing_order_applied :
    getEmailList exSt 1 =
      Except.ok ⟨exSt, [Frame.strList []], PyVal.emptyDict, []⟩ ∧
    getEmailList exStTwoMails 1 =
      Except.ok ⟨exStTwoMails, [Frame.strList ([em1, em2].enum.map (fun p =>
        subjectDisplay (p.1 + 1) p.2.sender p.2.subject p.2.date))],
        PyVal.emptyDict, []⟩ :=
  ⟨(email_list_listing_order exSt 1).1 rfl,
   (email_list_listing_order exStTwoMails 1).2 [em1, em2] rfl⟩

/-- Helper for C10: from an empty session map, a successful registration
leaves the map empty (invalid credentials) or binds exactly the one pair. -/
theorem createAccount_nil_loggedUsers (st : ServerState) (s : Socket)
    (u p : String) (hm : st.loggedUsers = []) (o : HandlerOut)
    (h : createAccount st s u p = Except.ok o) :
    o.state.loggedUsers = [] ∨ o.state.loggedUsers = [(u, s)] := by
  unfold createAccount at h
  rw [hm] at h
  simp only [List.isEmpty_nil, if_true] at h
  split at h
  · injection h with h2
    subst h2
    left
    exact hm
  · injection h with h2
    subst h2
    right
    split <;> simp [dictInsert]

/-- Helper for C10: with a non-empty session map, registration raises
AttributeError (`.lower()` applied to a socket value). -/
theorem createAccount_cons_err (st : ServerState) (s : Socket) (u p : String)
    (a : String × Socket) (l : List (String × Socket))
    (hm : st.loggedUsers = a :: l) :
    createAccount st s u p = Except.error PyErr.attributeError := by
  unfold createAccount
  rw [hm]
  rfl

/-- Helper for C10: a successful login leaves the state unchanged. -/
theorem login_ok_state (st : ServerState) (soc : Socket) (u p : String)
    (o : HandlerOut) (h : login st soc u p = Except.ok o) : o.state = st := by
  unfold login at h
  split at h
  · split at h <;> (injection h with h2; subst h2; rfl)
  · injection h with h2
    subst h2
    rfl

/-- Helper for C10: logout only filters the session map. -/
theorem applyAuthOp_logout_sublist (st : ServerState) (s : Socket) :
    (applyAuthOp st (AuthOp.logout s)).loggedUsers.Sublist st.loggedUsers := by
  simp only [applyAuthOp, logout]
  split
  · exact List.filter_sublist st.loggedUsers
  · exact List.Sublist.refl _

/-- Helper for C10: every authentication operation preserves the one-to-one
shape of the session map. -/
theorem applyAuthOp_oneToOne (st : ServerState) (op : AuthOp)
    (h : oneToOne st.loggedUsers) : oneToOne (applyAuthOp st op).loggedUsers := by
  cases op with
  | register s u p =>
      cases hm : st.loggedUsers with
      | cons a l =>
          simp only [applyAuthOp, createAccount_cons_err st s u p a l hm]
          exact h
      | nil =>
          cases hca : createAccount st s u p with
          | error e =>
              simp only [applyAuthOp, hca]
              exact h
          | ok o =>
              simp only [applyAuthOp, hca]
              rcases createAccount_nil_loggedUsers st s u p hm o hca with h0 | h1
              · rw [h0]
                exact List.Pairwise.nil
              · rw [h1]
                exact List.pairwise_singleton _ _
  | login s u p =>
      cases hl : login st s u p with
      | error e =>
          simp only [applyAuthOp, hl]
          exact h
      | ok o =>
          simp only [applyAuthOp, hl]
          rw [login_ok_state st s u p o hl]
          exact h
  | logout s =>
      exact h.sublist (applyAuthOp_logout_sublist st s)

/-- C10: in every state reachable from server start by any sequence of
register, login and logout operations, the session binding is one-to-one —
pairwise distinct usernames and pairwise distinct connections. (On this code
the invariant holds because registration raises AttributeError whenever any
session exists, login never mutates the map, and logout only removes.) -/
theorem session_binding_one_to_one (ops : List AuthOp) :
    oneToOne ((ops.foldl applyAuthOp initState).loggedUsers) := by
  have aux : ∀ (l : List AuthOp) (st : ServerState),
      oneToOne st.loggedUsers → oneToOne ((l.foldl applyAuthOp st).loggedUsers) := by
    intro l
    induction l with
    | nil => intro st h; exact h
    | cons a t ih => intro st h; exact ih _ (applyAuthOp_oneToOne st a h)
  exact aux ops initState List.Pairwise.nil
